import Mathlib

/-!
Shallow embedding of the BERT question-answering walkthrough notebook
(src/questions-answering-bert-walktrhough.ipynb).

The notebook runs a single (question, context) pair through an external
pretrained tokenizer and model and extracts an answer span by two independent
argmax calls.  The concrete lists below are the tensors the notebook prints
for that run: the encoded token ids, segment markers (token_type_ids) and
attention mask, the token strings, and the start and end logits (recorded to
four decimal places; they are embedded as integers scaled by 10000, which
preserves every comparison between the printed values).
-/

set_option maxRecDepth 100000

namespace QABert

def input_ids : List Nat :=
  [101, 2129, 2116, 11709, 2515, 14324, 1011, 2312, 2031, 1029, 102, 14324, 1011, 2312, 2003,
  2428, 2502, 1012, 1012, 1012, 2009, 2038, 2484, 1011, 9014, 1998, 2019, 7861, 8270, 4667,
  2946, 1997, 1015, 1010, 6185, 2549, 1010, 2005, 1037, 2561, 1997, 16029, 2213, 11709, 999,
  10462, 2009, 2003, 1015, 1012, 4090, 18259, 1010, 2061, 5987, 2009, 2000, 2202, 1037, 3232,
  2781, 2000, 8816, 2000, 2115, 15270, 2497, 6013, 1012, 102]

def token_type_ids : List Nat :=
  [0, 0, 0, 0, 0, 0, 0, 0, 0, 0, 0, 1, 1, 1, 1, 1, 1, 1, 1, 1, 1, 1, 1, 1, 1, 1, 1, 1, 1, 1, 1,
  1, 1, 1, 1, 1, 1, 1, 1, 1, 1, 1, 1, 1, 1, 1, 1, 1, 1, 1, 1, 1, 1, 1, 1, 1, 1, 1, 1, 1, 1, 1,
  1, 1, 1, 1, 1, 1, 1, 1]

def attention_mask : List Nat :=
  [1, 1, 1, 1, 1, 1, 1, 1, 1, 1, 1, 1, 1, 1, 1, 1, 1, 1, 1, 1, 1, 1, 1, 1, 1, 1, 1, 1, 1, 1, 1,
  1, 1, 1, 1, 1, 1, 1, 1, 1, 1, 1, 1, 1, 1, 1, 1, 1, 1, 1, 1, 1, 1, 1, 1, 1, 1, 1, 1, 1, 1, 1,
  1, 1, 1, 1, 1, 1, 1, 1]

def encode_run_ids : List Nat :=
  [101, 2129, 2116, 11709, 2515, 14324, 1011, 2312, 2031, 1029, 102, 14324, 1011, 2312, 2003,
  2428, 2502, 1012, 1012, 1012, 2009, 2038, 2484, 1011, 9014, 1998, 2019, 7861, 8270, 4667,
  2946, 1997, 1015, 1010, 6185, 2549, 1010, 2005, 1037, 2561, 1997, 16029, 2213, 11709, 999,
  10462, 2009, 2003, 1015, 1012, 4090, 18259, 1010, 2061, 5987, 2009, 2000, 2202, 1037, 3232,
  2781, 2000, 8816, 2000, 2115, 15270, 2497, 6013, 1012, 102]

def tokens : List String :=
  ["[CLS]", "how", "many", "parameters", "does", "bert", "-", "large", "have", "?", "[SEP]",
  "bert", "-", "large", "is", "really", "big", ".", ".", ".", "it", "has", "24", "-", "layers",
  "and", "an", "em", "##bed", "##ding", "size", "of", "1", ",", "02", "##4", ",", "for", "a",
  "total", "of", "340", "##m", "parameters", "!", "altogether", "it", "is", "1", ".", "34",
  "##gb", ",", "so", "expect", "it", "to", "take", "a", "couple", "minutes", "to", "download",
  "to", "your", "cola", "##b", "instance", ".", "[SEP]"]

def start_logits : List Int :=
  [3870, 3425, 2221, -1389, -598, 167, 2192, -195, 358, 1572, 2594, 26, 3877, 2388, -2559,
  -2483, -1877, -95, 1381, 192, -996, -1723, -579, 4340, 2965, 91, -136, -8, 2370, 1961, -3182,
  -174, -215, -2632, 3457, -4221, 2370, 834, 156, -4788, -394, -963, 3294, -429, 606, -20,
  -1711, -3001, -4400, -3295, -2250, -2735, 2988, -1878, -589, -34, -199, -3540, -1299, -4777,
  -1572, -1968, -1163, 2619, -1417, -2043, -156, -2806, 3504, 2129]

def end_logits : List Int :=
  [2750, 3025, 1982, 2804, 134, 1392, -3005, 1847, 2117, 1993, -2266, -302, -1538, 314, -2372,
  -445, 2061, 1308, 390, 2574, 2415, -1638, 1083, -361, 451, -1178, 372, -3832, -1898, 1761,
  375, 554, 2993, -798, -2169, 2698, -4066, 2325, 1174, 3165, 3443, 3851, 1287, 2415, 2915,
  -454, 534, -2316, 370, -2469, 754, -5071, -3522, 1184, 84, 403, 1088, -4221, -1754, 2822,
  -1701, 318, 644, 2431, 3674, -1204, 1616, 2142, -2207, -2640]

def questionIds : List Nat :=
  [2129, 2116, 11709, 2515, 14324, 1011, 2312, 2031, 1029]

def contextIds : List Nat :=
  [14324, 1011, 2312, 2003, 2428, 2502, 1012, 1012, 1012, 2009, 2038, 2484, 1011, 9014, 1998,
  2019, 7861, 8270, 4667, 2946, 1997, 1015, 1010, 6185, 2549, 1010, 2005, 1037, 2561, 1997,
  16029, 2213, 11709, 999, 10462, 2009, 2003, 1015, 1012, 4090, 18259, 1010, 2061, 5987, 2009,
  2000, 2202, 1037, 3232, 2781, 2000, 8816, 2000, 2115, 15270, 2497, 6013, 1012]

/-- Token id of the special marker that opens every encoded sequence. -/
def CLS : Nat := 101

/-- Token id of the special separator between question and context. -/
def SEP : Nat := 102

/-- Modelled from the spec: the external pretrained tokenizer (missing from
src/, treated by the repository as a black box).  Per spec sections 3, 4.1
and 6 it maps a (question, context) pair, here represented by the token-id
lists the external vocabulary assigns to the two strings, to the packed
sequence [CLS] question [SEP] context [SEP] together with parallel segment
markers: 0 over [CLS], the question and the first [SEP], and 1 over the
context and the trailing [SEP]. -/
def tokenize (qIds cIds : List Nat) : List Nat × List Nat :=
  (CLS :: qIds ++ SEP :: cIds ++ [SEP],
   List.replicate (qIds.length + 2) 0 ++ List.replicate (cIds.length + 1) 1)

/-- Modelled from the spec: the tokenizer.encode path of the same external
tokenizer, which returns only the token-id sequence (spec section 6). -/
def encode (qIds cIds : List Nat) : List Nat :=
  (tokenize qIds cIds).1

/-- Modelled from the spec: the opaque pretrained scoring model (missing from
src/).  Spec sections 4.2 and 6: given token ids and segment markers it
returns two score sequences aligned to the input length.  On the one input
the notebook feeds it, it returns the logits the notebook records; on any
other input it is known only through its length contract. -/
def modelForward (ids segs : List Nat) : List Int × List Int :=
  if ids = input_ids ∧ segs = token_type_ids then (start_logits, end_logits)
  else (List.replicate ids.length 0, List.replicate ids.length 0)

/-- Index of the first maximum of a list of scores, as torch argmax computes
it on the logit tensors (cell 19 of the notebook); 0 on the empty list. -/
def argmax : List Int → Nat
  | [] => 0
  | [_] => 0
  | x :: y :: ys =>
      if x < (y :: ys).getD (argmax (y :: ys)) 0 then argmax (y :: ys) + 1 else 0

/-- The answer positions the notebook computes: argmax of the start logits and
argmax of the end logits, each taken independently (cell 19). -/
def answerIndices (sl el : List Int) : Nat × Nat :=
  (argmax sl, argmax el)

/-- A WordPiece continuation fragment: a token whose first two characters are
the ## marker. -/
def isContinuation (tok : String) : Bool :=
  match tok.data with
  | '#' :: '#' :: _ => true
  | _ => false

/-- Remove the two leading ## marker characters of a continuation fragment. -/
def dropMarker (tok : String) : String :=
  ⟨tok.data.drop 2⟩

/-- Rejoin a list of WordPiece tokens into text: a continuation fragment is
glued to the previous token with its ## marker removed, any other token is
attached with a single space. -/
def wordpieceJoin : List String → String
  | [] => ""
  | t :: ts =>
      ts.foldl (fun acc tok =>
        if isContinuation tok then acc ++ dropMarker tok else acc ++ " " ++ tok) t

/-- Modelled from the spec: answer reconstruction (missing from src/).  Spec
section 4.3: take the sub-sequence of tokens between the start and end
positions inclusive and rejoin WordPiece continuation fragments; the spec
notes that no validation of the degenerate case end < start is implemented,
so the function is total and simply yields the empty span there. -/
def answerSpan (toks : List String) (s e : Nat) : String :=
  wordpieceJoin ((toks.drop s).take (e + 1 - s))

/-- The whole flow of the notebook: encode the pair, then run the forward
pass on the encoded ids and segment markers, with no check in between. -/
def pipeline (qIds cIds : List Nat) : List Int × List Int :=
  modelForward (tokenize qIds cIds).1 (tokenize qIds cIds).2

/-- Keep the positions whose attention-mask entry is 1. -/
def applyMask : List Nat → List Nat → List Nat
  | [], _ => []
  | _ :: _, [] => []
  | x :: xs, m :: ms =>
      if m = 1 then x :: applyMask xs ms else applyMask xs ms

/-- Modelled from the spec: the forward pass when an attention mask is also
supplied.  The mask selects the positions the model attends to, so the model
sees the masked restriction of the ids and segment markers; the notebook
itself never passes the mask (cell 17 passes only ids and segment markers). -/
def modelForwardWithMask (ids segs mask : List Nat) : List Int × List Int :=
  modelForward (applyMask ids mask) (applyMask segs mask)

/-- Position i carries a maximum of the list l. -/
def isMaxAt (l : List Int) (i : Nat) : Prop :=
  i < l.length ∧ ∀ j, j < l.length → l.getD j 0 ≤ l.getD i 0

/-! ### Helper lemmas -/

/-- The argmax of a non-empty list is a valid index. -/
theorem argmax_lt_length : ∀ (l : List Int), l ≠ [] → argmax l < l.length
  | [], h => absurd rfl h
  | [_], _ => by simp [argmax]
  | x :: y :: ys, _ => by
      have ih : argmax (y :: ys) < ys.length + 1 := by
        simpa using argmax_lt_length (y :: ys) (List.cons_ne_nil y ys)
      by_cases h : x < (y :: ys).getD (argmax (y :: ys)) 0
      · simp only [argmax, if_pos h, List.length_cons]
        omega
      · simp only [argmax, if_neg h, List.length_cons]
        omega

/-- Every entry of a list is bounded by the entry at its argmax. -/
theorem getD_le_argmax : ∀ (l : List Int) (j : Nat), j < l.length →
    l.getD j 0 ≤ l.getD (argmax l) 0
  | [], _, h => by simp at h
  | [x], j, h => by
      have hj : j = 0 := by simpa using Nat.lt_one_iff.mp (by simpa using h)
      subst hj
      simp [argmax]
  | x :: y :: ys, j, h => by
      by_cases hc : x < (y :: ys).getD (argmax (y :: ys)) 0
      · simp only [argmax, if_pos hc]
        cases j with
        | zero =>
            simpa [List.getD_cons_zero, List.getD_cons_succ] using le_of_lt hc
        | succ k =>
            have hk : k < (y :: ys).length := by
              simpa [Nat.succ_lt_succ_iff] using h
            simpa [List.getD_cons_succ] using getD_le_argmax (y :: ys) k hk
      · simp only [argmax, if_neg hc]
        have hle : (y :: ys).getD (argmax (y :: ys)) 0 ≤ x := not_lt.mp hc
        cases j with
        | zero => simp
        | succ k =>
            have hk : k < (y :: ys).length := by
              simpa [Nat.succ_lt_succ_iff] using h
            have := getD_le_argmax (y :: ys) k hk
            simpa [List.getD_cons_succ, List.getD_cons_zero] using le_trans this hle

/-- An attention mask of all ones keeps every position. -/
theorem applyMask_replicate_one : ∀ (xs : List Nat) (n : Nat), xs.length ≤ n →
    applyMask xs (List.replicate n 1) = xs
  | [], n, _ => by cases n <;> simp [applyMask]
  | x :: xs, 0, h => by simp at h
  | x :: xs, n + 1, h => by
      have ih := applyMask_replicate_one xs n (by simpa using h)
      simp [List.replicate_succ, applyMask, ih]

/-- The two logit lists the forward pass returns are as long as the id list. -/
theorem modelForward_lengths (ids segs : List Nat) :
    (modelForward ids segs).1.length = ids.length ∧
    (modelForward ids segs).2.length = ids.length := by
  by_cases h : ids = input_ids ∧ segs = token_type_ids
  · obtain ⟨h1, h2⟩ := h
    subst h1; subst h2
    simp only [modelForward, if_pos (And.intro rfl rfl)]
    exact ⟨by decide, by decide⟩
  · simp only [modelForward, if_neg h]
    simp

/-! ### Claims -/

/-- C1: answer extraction takes the start position as the index of a maximum
of the start-logit list and the end position as the index of a maximum of the
end-logit list, each argmax independent of the other list, with no
start-before-end constraint; on the recorded run the extracted pair is
(23, 41). -/
theorem C1_extraction_is_independent_argmax (sl el : List Int)
    (hs : sl ≠ []) (he : el ≠ []) :
    isMaxAt sl (answerIndices sl el).1 ∧ isMaxAt el (answerIndices sl el).2 ∧
    (∀ el2 : List Int, (answerIndices sl el2).1 = (answerIndices sl el).1) ∧
    (∀ sl2 : List Int, (answerIndices sl2 el).2 = (answerIndices sl el).2) ∧
    answerIndices start_logits end_logits = (23, 41) ∧
    (∃ sl2 el2 : List Int, sl2 ≠ [] ∧ el2 ≠ [] ∧
      (answerIndices sl2 el2).2 < (answerIndices sl2 el2).1) := by
  refine ⟨⟨argmax_lt_length sl hs, fun j hj => getD_le_argmax sl j hj⟩,
    ⟨argmax_lt_length el he, fun j hj => getD_le_argmax el j hj⟩,
    fun _ => rfl, fun _ => rfl, by decide,
    [0, 1], [1, 0], by simp, by simp, by decide⟩

/-- C1 witness: the theorem applied to the logit lists of the recorded run. -/
theorem C1_extraction_is_independent_argmax_witness :
    isMaxAt start_logits (answerIndices start_logits end_logits).1 ∧
    isMaxAt end_logits (answerIndices start_logits end_logits).2 ∧
    (∀ el2 : List Int,
      (answerIndices start_logits el2).1 =
        (answerIndices start_logits end_logits).1) ∧
    (∀ sl2 : List Int,
      (answerIndices sl2 end_logits).2 =
        (answerIndices start_logits end_logits).2) ∧
    answerIndices start_logits end_logits = (23, 41) ∧
    (∃ sl2 el2 : List Int, sl2 ≠ [] ∧ el2 ≠ [] ∧
      (answerIndices sl2 el2).2 < (answerIndices sl2 el2).1) :=
  C1_extraction_is_independent_argmax start_logits end_logits
    (by decide) (by decide)

/-- C2 counterexample: with the recorded tokens, the span from start index 23
to end index 41 inclusive does not rejoin to the text the claim states. -/
theorem C2_span_text_counterexample :
    answerSpan tokens 23 41 ≠ "24 - layers and an embedding size of 1 , 024" := by
  decide

/-- C2 (amended): the recorded argmax pair is (23, 41), the span from 23 to 41
inclusive rejoins to "- layers and an embedding size of 1 , 024 , for a total
of 340", and the text the claim expected is the rejoining of the span from 22
to 35 inclusive instead. -/
theorem C2_span_reconstruction_amended :
    answerIndices start_logits end_logits = (23, 41) ∧
    answerSpan tokens 23 41 =
      "- layers and an embedding size of 1 , 024 , for a total of 340" ∧
    answerSpan tokens 22 35 = "24 - layers and an embedding size of 1 , 024" :=
  ⟨by decide, by decide, by decide⟩

/-- C3 counterexample: on logit lists whose argmax pair is reversed (end 0 <
start 1), extraction just returns, and the reconstruction yields the empty
span with no error of any kind. -/
theorem C3_no_error_on_reversed_span :
    (answerIndices [0, 1] [1, 0]).2 < (answerIndices [0, 1] [1, 0]).1 ∧
    answerSpan tokens (answerIndices [0, 1] [1, 0]).1
      (answerIndices [0, 1] [1, 0]).2 = "" := by
  decide

/-- C3 (amended): when the end index precedes the start index, extraction
performs no validation and silently returns the empty span. -/
theorem C3_reversed_span_silently_empty (toks : List String) (s e : Nat)
    (h : e < s) : answerSpan toks s e = "" := by
  unfold answerSpan
  have h0 : e + 1 - s = 0 := by omega
  simp [h0, wordpieceJoin]

/-- C3 witness: the amended theorem applied at start 2, end 1 over the
recorded tokens. -/
theorem C3_reversed_span_silently_empty_witness :
    (1 : Nat) < 2 ∧ answerSpan tokens 2 1 = "" :=
  ⟨by decide, C3_reversed_span_silently_empty tokens 2 1 (by decide)⟩

/-- C4: for every pair, the segment mask is one run of 0s starting at index 0
over [CLS], the question and the first [SEP], followed by one run of 1s over
the context and the trailing [SEP]; the run lengths sum to the length of the
id sequence, which the mask length equals; on the recorded pair the tokenizer
model reproduces the notebook tensors exactly. -/
theorem C4_segment_mask_two_runs (qIds cIds : List Nat) :
    ∃ a b : Nat,
      (tokenize qIds cIds).2 = List.replicate a 0 ++ List.replicate b 1 ∧
      0 < a ∧ 0 < b ∧ a = qIds.length + 2 ∧ b = cIds.length + 1 ∧
      a + b = (tokenize qIds cIds).1.length ∧
      (tokenize qIds cIds).2.length = (tokenize qIds cIds).1.length ∧
      tokenize questionIds contextIds = (input_ids, token_type_ids) := by
  refine ⟨qIds.length + 2, cIds.length + 1, rfl, by omega, by omega, rfl, rfl,
    ?_, ?_, by decide⟩
  · simp [tokenize]
    omega
  · simp [tokenize]
    omega

/-- C5: the start-logit and end-logit lists of the forward pass each have the
length of the token-id list fed to the model. -/
theorem C5_logit_lengths_match_input (ids segs : List Nat) :
    (modelForward ids segs).1.length = ids.length ∧
    (modelForward ids segs).2.length = ids.length :=
  modelForward_lengths ids segs

/-- C6: tokenization is deterministic: two calls on equal (question, context)
pairs return identical id and segment-mask sequences, on both tokenizer API
paths; in the recorded run the two paths did return identical id lists. -/
theorem C6_tokenization_deterministic (q c q2 c2 : List Nat)
    (hq : q = q2) (hc : c = c2) :
    tokenize q c = tokenize q2 c2 ∧ encode q c = encode q2 c2 ∧
    encode questionIds contextIds = encode_run_ids ∧
    (tokenize questionIds contextIds).1 = input_ids := by
  subst hq; subst hc
  exact ⟨rfl, rfl, by decide, by decide⟩

/-- C6 witness: the theorem applied to the recorded pair. -/
theorem C6_tokenization_deterministic_witness :
    tokenize questionIds contextIds = tokenize questionIds contextIds ∧
    encode questionIds contextIds = encode questionIds contextIds ∧
    encode questionIds contextIds = encode_run_ids ∧
    (tokenize questionIds contextIds).1 = input_ids :=
  C6_tokenization_deterministic questionIds contextIds questionIds contextIds
    rfl rfl

/-- C7: the pipeline runs the encoded sequence straight into the forward pass
with no length validation and no error branch: even when the encoded length
exceeds 512, the forward pass is applied to the full sequence and returns
logits of that full length. -/
theorem C7_no_length_validation (qIds cIds : List Nat)
    (_h : 512 < (tokenize qIds cIds).1.length) :
    pipeline qIds cIds =
      modelForward (tokenize qIds cIds).1 (tokenize qIds cIds).2 ∧
    (pipeline qIds cIds).1.length = (tokenize qIds cIds).1.length ∧
    (pipeline qIds cIds).2.length = (tokenize qIds cIds).1.length :=
  ⟨rfl, (modelForward_lengths _ _).1, (modelForward_lengths _ _).2⟩

/-- C7 witness: a question of 600 tokens encodes to 603 ids, above the 512
position bound, and the pipeline still returns full-length logits. -/
theorem C7_no_length_validation_witness :
    512 < (tokenize (List.replicate 600 5) []).1.length ∧
    (pipeline (List.replicate 600 5) []).1.length =
      (tokenize (List.replicate 600 5) []).1.length :=
  ⟨by simp [tokenize], (C7_no_length_validation (List.replicate 600 5) []
    (by simp [tokenize])).2.1⟩

/-- C8: the id list recorded from tokenizer.encode equals the id list recorded
from the dictionary-returning tokenizer call, so the forward pass pairs ids
and segment mask of matching origin; in the model the encode path is by
construction the id component of the full tokenizer, and the recorded segment
mask has the length of the recorded encode output. -/
theorem C8_encode_agrees_with_dict_ids :
    encode_run_ids = input_ids ∧
    (∀ qIds cIds : List Nat, encode qIds cIds = (tokenize qIds cIds).1) ∧
    token_type_ids.length = encode_run_ids.length :=
  ⟨by decide, fun _ _ => rfl, by decide⟩

/-- C9: the recorded attention mask is all ones with the length of the id
list, and supplying such a mask to the forward pass changes nothing relative
to the mask-free call the notebook makes; in particular on the recorded
input. -/
theorem C9_all_ones_mask_is_no_op (ids segs : List Nat)
    (h : segs.length = ids.length) :
    attention_mask = List.replicate input_ids.length 1 ∧
    attention_mask.length = input_ids.length ∧
    modelForwardWithMask ids segs (List.replicate ids.length 1) =
      modelForward ids segs ∧
    modelForwardWithMask input_ids token_type_ids attention_mask =
      modelForward input_ids token_type_ids := by
  refine ⟨by decide, by decide, ?_, by decide⟩
  unfold modelForwardWithMask
  rw [applyMask_replicate_one ids ids.length le_rfl,
    applyMask_replicate_one segs ids.length (le_of_eq h)]

/-- C9 witness: the theorem applied to the recorded ids and segment mask. -/
theorem C9_all_ones_mask_is_no_op_witness :
    attention_mask = List.replicate input_ids.length 1 ∧
    attention_mask.length = input_ids.length ∧
    modelForwardWithMask input_ids token_type_ids
      (List.replicate input_ids.length 1) =
      modelForward input_ids token_type_ids ∧
    modelForwardWithMask input_ids token_type_ids attention_mask =
      modelForward input_ids token_type_ids :=
  C9_all_ones_mask_is_no_op input_ids token_type_ids (by decide)

/-- C10: every encoded pair yields non-empty logit lists (the encoding always
holds [CLS] and two [SEP] markers, so it has at least three ids), and the two
argmax results are valid positions of the token-id sequence. -/
theorem C10_argmax_indices_in_bounds (qIds cIds : List Nat) :
    3 ≤ (tokenize qIds cIds).1.length ∧
    (pipeline qIds cIds).1 ≠ [] ∧ (pipeline qIds cIds).2 ≠ [] ∧
    (answerIndices (pipeline qIds cIds).1 (pipeline qIds cIds).2).1 <
      (tokenize qIds cIds).1.length ∧
    (answerIndices (pipeline qIds cIds).1 (pipeline qIds cIds).2).2 <
      (tokenize qIds cIds).1.length := by
  have hlen : 3 ≤ (tokenize qIds cIds).1.length := by
    simp [tokenize]
    omega
  have h1 : (pipeline qIds cIds).1.length = (tokenize qIds cIds).1.length :=
    (modelForward_lengths _ _).1
  have h2 : (pipeline qIds cIds).2.length = (tokenize qIds cIds).1.length :=
    (modelForward_lengths _ _).2
  have hn1 : (pipeline qIds cIds).1 ≠ [] := by
    intro hx
    rw [hx] at h1
    simp at h1
    omega
  have hn2 : (pipeline qIds cIds).2 ≠ [] := by
    intro hx
    rw [hx] at h2
    simp at h2
    omega
  refine ⟨hlen, hn1, hn2, ?_, ?_⟩
  · have := argmax_lt_length (pipeline qIds cIds).1 hn1
    simpa [answerIndices, h1] using this
  · have := argmax_lt_length (pipeline qIds cIds).2 hn2
    simpa [answerIndices, h2] using this

end QABert
